import Mathlib

/-!
Verification development for the rusty_spine skeleton-animation runtime.

The Rust sources under verification are shallowly embedded below.  Pure
Rust functions become Lean functions; the mutable state threaded through
the controller (skeleton pose, animation tracks, the attachment heap with
its reference counts) becomes explicit state passing.  The machine float
type f32 is modelled by the rationals, and raw C pointers by natural
number addresses into an explicit heap list.  Components of the crate
that live outside the provided sources (the animation-state mixer, bone
world-transform propagation, the simple drawer) are modelled from the
specification and are marked as such in their doc comments.
-/

namespace Spine

/-- Winding direction used for front-face culling, from the draw module. -/
inductive CullDirection
  | Clockwise
  | CounterClockwise
deriving DecidableEq, Repr

/-- Slot blend modes, from the crate's BlendMode enum. -/
inductive BlendMode
  | Normal
  | Additive
  | Multiply
  | Screen
deriving DecidableEq, Repr

/-- An RGBA color; f32 channels are modelled by rationals. -/
structure Color where
  r : ℚ
  g : ℚ
  b : ℚ
  a : ℚ
deriving DecidableEq, Repr

/-- Renderer-wide settings, from SkeletonControllerSettings in
skeleton_controller.rs. -/
structure SkeletonControllerSettings where
  premultiplied_alpha : Bool
  cull_direction : CullDirection
deriving DecidableEq, Repr

/-- The Default impl for SkeletonControllerSettings. -/
def SkeletonControllerSettings.default_settings : SkeletonControllerSettings :=
  { premultiplied_alpha := false
    cull_direction := CullDirection.Clockwise }

/-- SkeletonControllerSettings::new, which delegates to Default. -/
def SkeletonControllerSettings.new : SkeletonControllerSettings :=
  SkeletonControllerSettings.default_settings

/-- SkeletonControllerSettings::with_premultiplied_alpha: functional update
of the premultiplied_alpha field only. -/
def SkeletonControllerSettings.with_premultiplied_alpha
    (s : SkeletonControllerSettings) (premultiplied_alpha : Bool) :
    SkeletonControllerSettings :=
  { s with premultiplied_alpha := premultiplied_alpha }

/-- SkeletonControllerSettings::with_cull_direction: functional update of
the cull_direction field only. -/
def SkeletonControllerSettings.with_cull_direction
    (s : SkeletonControllerSettings) (cull_direction : CullDirection) :
    SkeletonControllerSettings :=
  { s with cull_direction := cull_direction }

/-- A 2x3 affine matrix, the representation the spec gives for a bone's
local and world transforms.  Row-major: the linear part is a b / c d and
the translation is tx ty. -/
structure Affine where
  a : ℚ
  b : ℚ
  c : ℚ
  d : ℚ
  tx : ℚ
  ty : ℚ
deriving DecidableEq, Repr

/-- The identity affine transform, the parent transform of the root bone. -/
def Affine.identity : Affine :=
  ⟨1, 0, 0, 1, 0, 0⟩

/-- Composition of affine transforms: Affine.comp p q applies q first and
then p, so a bone's world transform is parent.comp local. -/
def Affine.comp (p q : Affine) : Affine :=
  { a := p.a * q.a + p.b * q.c
    b := p.a * q.b + p.b * q.d
    c := p.c * q.a + p.d * q.c
    d := p.c * q.b + p.d * q.d
    tx := p.a * q.tx + p.b * q.ty + p.tx
    ty := p.c * q.tx + p.d * q.ty + p.ty }

/-- Modelled from the spec: a bone definition from SkeletonData.bones.
The parent is an index into the bone array; bone declaration order is a
topological sort of the parent relation, so a parent index always points
at an earlier bone.  The transform components themselves live in the
per-instance local transforms. -/
structure BoneDef where
  parent : Option Nat
deriving DecidableEq, Repr

/-- Modelled from the spec: an Animation from SkeletonData.animations.
Timeline evaluation lives outside the provided sources; the model keeps
the animation's name, its duration, and the local pose its timelines
produce, which is all the claims under verification consult. -/
structure Animation where
  name : String
  duration : ℚ
  pose_locals : List Affine
deriving DecidableEq, Repr

/-- Modelled from the spec: the immutable SkeletonData definition tables.
Only the tables the claims consult are carried: bones with setup-pose
local transforms, animations, and skin names. -/
structure SkeletonData where
  bones : List BoneDef
  setup_locals : List Affine
  animations : List Animation
  skins : List String
deriving DecidableEq, Repr

/-- Modelled from the spec: a live Skeleton instance — a reference to its
SkeletonData, the active skin, and per-bone local and world transforms. -/
structure Skeleton where
  data : SkeletonData
  skin : Option String
  locals : List Affine
  worlds : List Affine
deriving DecidableEq, Repr

/-- Modelled from the spec: world-transform propagation over the bone
array in declaration order (parents strictly before children), composing
each bone's local transform with its parent's already-computed world
transform; the root composes with the identity. -/
def computeWorlds (bones : List BoneDef) (locals : List Affine) : List Affine :=
  (List.range bones.length).foldl
    (fun acc i =>
      let l := locals.getD i Affine.identity
      let pw :=
        match (bones.getD i ⟨none⟩).parent with
        | none => Affine.identity
        | some pi => acc.getD pi Affine.identity
      acc ++ [pw.comp l])
    []

/-- Modelled from the spec: Skeleton::update_world_transform performs a
single top-down propagation pass, a pure function of the bone table and
the current local transforms. -/
def Skeleton.update_world_transform (sk : Skeleton) : Skeleton :=
  { sk with worlds := computeWorlds sk.data.bones sk.locals }

/-- Animation event types, from the crate's EventType enum. -/
inductive EventType
  | Start
  | Interrupt
  | End
  | Complete
  | Dispose
  | Event
deriving DecidableEq, Repr

/-- The error type returned by fallible name lookups. -/
inductive SpineError
  | NotFound
deriving DecidableEq, Repr

/-- Modelled from the spec: the mutable state of one animation track — the
referenced animation, accumulated track time, the loop flag and the time
scale. -/
structure TrackEntry where
  animation : Animation
  track_time : ℚ
  looping : Bool
  time_scale : ℚ
deriving DecidableEq, Repr

/-- Modelled from the spec: advancing one track entry by dt.  The delta is
multiplied by the entry's time scale and added to track time; a
non-looping entry clamps at the animation's duration and fires a single
Complete event when track time crosses the duration; a looping entry
wraps and fires one Complete per wrap. -/
def TrackEntry.advance (e : TrackEntry) (dt : ℚ) : TrackEntry × List EventType :=
  let t := e.track_time + dt * e.time_scale
  let dur := e.animation.duration
  if e.looping then
    if 0 < dur then
      let wraps := (⌊t / dur⌋ - ⌊e.track_time / dur⌋).toNat
      ({ e with track_time := t - dur * (⌊t / dur⌋ : ℚ) },
        List.replicate wraps EventType.Complete)
    else
      ({ e with track_time := t }, [])
  else
    ({ e with track_time := min t dur },
      if e.track_time < dur ∧ dur ≤ t then [EventType.Complete] else [])

/-- Iterated advance: one advance call per element of dts, in order,
collecting the fired events. -/
def TrackEntry.advanceMany (e : TrackEntry) (dts : List ℚ) : TrackEntry × List EventType :=
  match dts with
  | [] => (e, [])
  | dt :: rest =>
    let step := e.advance dt
    let next := step.1.advanceMany rest
    (next.1, step.2 ++ next.2)

/-- Modelled from the spec: the animation-state mixer — an ordered sparse
array of optional track entries plus the buffer of events generated
during mixing, delivered to the listener after the pass. -/
structure AnimationState where
  tracks : List (Option TrackEntry)
  queued_events : List EventType
deriving DecidableEq, Repr

/-- Modelled from the spec: AnimationState::update advances every
non-empty track entry by dt and buffers the events fired, in ascending
track-index order. -/
def AnimationState.update (st : AnimationState) (dt : ℚ) : AnimationState :=
  let stepped := st.tracks.map (Option.map (fun e => e.advance dt))
  { tracks := stepped.map (Option.map Prod.fst)
    queued_events :=
      st.queued_events ++
        stepped.foldr (fun o acc => (o.map Prod.snd).getD [] ++ acc) [] }

/-- Modelled from the spec: the pose produced by applying the tracks in
ascending track-index order on top of the setup pose.  Timeline
interpolation lives outside the provided sources; the model applies each
non-empty track's sampled pose over the pose accumulated so far. -/
def AnimationState.mixPose (st : AnimationState) (d : SkeletonData) : List Affine :=
  st.tracks.foldl
    (fun acc o =>
      match o with
      | none => acc
      | some e => e.animation.pose_locals)
    d.setup_locals

/-- Modelled from the spec: AnimationState::apply writes the mixed pose
into the skeleton's local bone transforms. -/
def AnimationState.apply (st : AnimationState) (sk : Skeleton) : Skeleton :=
  { sk with locals := st.mixPose sk.data }

/-- Grows the sparse track array so index i exists, then stores the entry
there. -/
def setTrack (tracks : List (Option TrackEntry)) (i : Nat) (e : TrackEntry) :
    List (Option TrackEntry) :=
  (tracks ++ List.replicate (i + 1 - tracks.length) none).set i (some e)

/-- Modelled from the spec: AnimationState::set_animation_by_name looks
the animation name up in the SkeletonData table; on failure it returns a
recoverable NotFound error and leaves the track array untouched, on
success it replaces the track's entry with a fresh one. -/
def AnimationState.set_animation_by_name (st : AnimationState) (d : SkeletonData)
    (track_index : Nat) (nm : String) (looping : Bool) :
    AnimationState × Except SpineError TrackEntry :=
  match d.animations.find? (fun a => a.name == nm) with
  | none => (st, Except.error SpineError.NotFound)
  | some anim =>
    let entry : TrackEntry :=
      { animation := anim, track_time := 0, looping := looping, time_scale := 1 }
    ({ st with tracks := setTrack st.tracks track_index entry }, Except.ok entry)

/-- Modelled from the spec: Skeleton::set_skin_by_name looks the skin name
up in the SkeletonData skin table; on failure it returns a recoverable
NotFound error and leaves the skeleton untouched. -/
def Skeleton.set_skin_by_name (sk : Skeleton) (nm : String) :
    Skeleton × Except SpineError Unit :=
  if nm ∈ sk.data.skins then
    ({ sk with skin := some nm }, Except.ok ())
  else
    (sk, Except.error SpineError.NotFound)

/-- Modelled from the spec: the clipping engine's state.  Its internals
are outside the provided sources; the model records only whether a clip
polygon is active. -/
structure SkeletonClipping where
  clip_active : Bool
deriving DecidableEq, Repr

/-- The SkeletonController from skeleton_controller.rs: a skeleton, its
animation state, a clipper and the renderer-wide settings. -/
structure SkeletonController where
  skeleton : Skeleton
  animation_state : AnimationState
  clipper : SkeletonClipping
  settings : SkeletonControllerSettings
deriving DecidableEq, Repr

/-- SkeletonController::update from skeleton_controller.rs: advance the
animation state by delta_seconds, apply the resulting pose onto the
skeleton, then propagate bone world transforms. -/
def SkeletonController.update (c : SkeletonController) (delta_seconds : ℚ) :
    SkeletonController :=
  let st := c.animation_state.update delta_seconds
  let sk := st.apply c.skeleton
  let sk2 := sk.update_world_transform
  { c with animation_state := st, skeleton := sk2 }

/-- The first of the three per-frame steps of update: the mixer advances
track times. -/
def SkeletonController.stepAdvanceMixer (c : SkeletonController)
    (delta_seconds : ℚ) : SkeletonController :=
  { c with animation_state := c.animation_state.update delta_seconds }

/-- The second per-frame step: the mixer applies the mixed pose onto the
skeleton's local transforms. -/
def SkeletonController.stepApplyPose (c : SkeletonController) : SkeletonController :=
  { c with skeleton := c.animation_state.apply c.skeleton }

/-- The third per-frame step: bone world transforms are propagated
top-down. -/
def SkeletonController.stepPropagateWorld (c : SkeletonController) : SkeletonController :=
  { c with skeleton := c.skeleton.update_world_transform }

/-- The SimpleDrawer configuration record from the draw module, as
constructed inside SkeletonController::renderables. -/
structure SimpleDrawer where
  cull_direction : CullDirection
  premultiplied_alpha : Bool
deriving DecidableEq, Repr

/-- A renderable produced by the drawer.  The texture handle is an opaque
value of an arbitrary type H that the controller can only copy. -/
structure Renderable (H : Type) where
  slot_index : Int
  vertices : List (ℚ × ℚ)
  uvs : List (ℚ × ℚ)
  indices : List Nat
  color : Color
  dark_color : Color
  blend_mode : BlendMode
  attachment_renderer_object : Option H
deriving DecidableEq, Repr

/-- The SkeletonRenderable batch emitted by
SkeletonController::renderables, from skeleton_controller.rs; the
indices field models the Rust Vec of u16. -/
structure SkeletonRenderable (H : Type) where
  slot_index : Int
  vertices : List (ℚ × ℚ)
  uvs : List (ℚ × ℚ)
  indices : List Nat
  color : Color
  dark_color : Color
  blend_mode : BlendMode
  premultiplied_alpha : Bool
  attachment_renderer_object : Option H
deriving DecidableEq, Repr

/-- The SimpleDrawer value SkeletonController::renderables constructs
from its settings before drawing. -/
def SkeletonController.drawer (c : SkeletonController) : SimpleDrawer :=
  { cull_direction := c.settings.cull_direction
    premultiplied_alpha := c.settings.premultiplied_alpha }

/-- SkeletonController::renderables from skeleton_controller.rs.  The
drawer's draw method lives outside the provided sources, so it is taken
as an arbitrary function of the drawer configuration, the skeleton and
the clipper; the controller maps each drawer renderable into a batch,
copying every field, stamping in the settings' premultiplied_alpha flag
and passing the opaque texture handle through untouched. -/
def SkeletonController.renderables {H : Type}
    (draw : SimpleDrawer → Skeleton → SkeletonClipping → List (Renderable H))
    (c : SkeletonController) : List (SkeletonRenderable H) :=
  (draw c.drawer c.skeleton c.clipper).map (fun r =>
    { slot_index := r.slot_index
      vertices := r.vertices
      uvs := r.uvs
      indices := r.indices
      color := r.color
      dark_color := r.dark_color
      blend_mode := r.blend_mode
      premultiplied_alpha := c.settings.premultiplied_alpha
      attachment_renderer_object := r.attachment_renderer_object })

/-- Attachment variant tags, from the AttachmentType enum in
attachment.rs. -/
inductive AttachmentType
  | Region
  | BoundingBox
  | Mesh
  | LinkedMesh
  | Path
  | Point
  | Clipping
  | Unknown
deriving DecidableEq, Repr

/-- The C-side spAttachment record an Attachment handle points at: its
reference count, variant tag, name, and the geometry blob the handle
shares rather than copies. -/
structure CAttachment where
  refCount : Nat
  type_0 : AttachmentType
  name : String
  geometry : List (ℚ × ℚ)
deriving DecidableEq, Repr

/-- The default record used when a dangling address is read; dereferencing
is only meaningful at live addresses. -/
def defaultCAttachment : CAttachment :=
  { refCount := 0, type_0 := AttachmentType.Unknown, name := "", geometry := [] }

/-- The attachment heap: C attachment records addressed by natural
numbers, standing for the raw pointers of the Rust code. -/
def AttachHeap : Type := List CAttachment

/-- An Attachment handle from attachment.rs: a wrapped raw pointer. -/
structure Attachment where
  c_attachment : Nat
deriving DecidableEq, Repr

/-- Attachment::new_from_ptr from attachment.rs: increments the pointee's
reference count and wraps the pointer; no record is allocated and no
geometry is copied. -/
def Attachment.new_from_ptr (h : AttachHeap) (p : Nat) : AttachHeap ×  Attachment :=
  let entry := h.getD p defaultCAttachment
  (h.set p { entry with refCount := entry.refCount + 1 }, ⟨p⟩)

/-- The Clone impl for Attachment from attachment.rs: clone is
new_from_ptr at the handle's own pointer. -/
def Attachment.clone (h : AttachHeap) (a : Attachment) : AttachHeap × Attachment :=
  Attachment.new_from_ptr h a.c_attachment

/-- Attachment::attachment_type reads the variant tag of the pointee. -/
def Attachment.attachment_type (h : AttachHeap) (a : Attachment) : AttachmentType :=
  (h.getD a.c_attachment defaultCAttachment).type_0

/-- A RegionAttachment handle: the same pointer viewed at the region
subtype, as produced by the cast in Attachment::as_region. -/
structure RegionAttachment where
  c_region : Nat
deriving DecidableEq, Repr

/-- A BoundingBoxAttachment handle. -/
structure BoundingBoxAttachment where
  c_bounding_box : Nat
deriving DecidableEq, Repr

/-- A MeshAttachment handle. -/
structure MeshAttachment where
  c_mesh : Nat
deriving DecidableEq, Repr

/-- A PointAttachment handle. -/
structure PointAttachment where
  c_point : Nat
deriving DecidableEq, Repr

/-- A ClippingAttachment handle. -/
structure ClippingAttachment where
  c_clipping : Nat
deriving DecidableEq, Repr

/-- Attachment::as_region from attachment.rs: some exactly when the
variant tag is Region. -/
def Attachment.as_region (h : AttachHeap) (a : Attachment) : Option RegionAttachment :=
  if a.attachment_type h = AttachmentType.Region then
    some ⟨a.c_attachment⟩
  else
    none

/-- Attachment::as_bounding_box from attachment.rs. -/
def Attachment.as_bounding_box (h : AttachHeap) (a : Attachment) :
    Option BoundingBoxAttachment :=
  if a.attachment_type h = AttachmentType.BoundingBox then
    some ⟨a.c_attachment⟩
  else
    none

/-- Attachment::as_mesh from attachment.rs. -/
def Attachment.as_mesh (h : AttachHeap) (a : Attachment) : Option MeshAttachment :=
  if a.attachment_type h = AttachmentType.Mesh then
    some ⟨a.c_attachment⟩
  else
    none

/-- Attachment::as_point from attachment.rs. -/
def Attachment.as_point (h : AttachHeap) (a : Attachment) : Option PointAttachment :=
  if a.attachment_type h = AttachmentType.Point then
    some ⟨a.c_attachment⟩
  else
    none

/-- Attachment::as_clipping from attachment.rs. -/
def Attachment.as_clipping (h : AttachHeap) (a : Attachment) : Option ClippingAttachment :=
  if a.attachment_type h = AttachmentType.Clipping then
    some ⟨a.c_attachment⟩
  else
    none

end Spine

namespace Spine

/-- C1: SkeletonController::update performs the per-frame steps in exactly
the order mixer-advance, pose-apply, world-transform propagation, and it
touches neither the renderer settings nor the clipper; render output is
produced only by the separate renderables definition. -/
theorem c1_update_step_order :
    ∀ (c : SkeletonController) (delta_seconds : ℚ),
      c.update delta_seconds =
        ((c.stepAdvanceMixer delta_seconds).stepApplyPose).stepPropagateWorld ∧
      (c.update delta_seconds).settings = c.settings ∧
      (c.update delta_seconds).clipper = c.clipper :=
  fun _ _ => ⟨rfl, rfl, rfl⟩

/-- C5: world-transform propagation is deterministic — two skeletons with
identical SkeletonData and identical local transforms get identical world
matrices from update_world_transform, whatever their other state. -/
theorem c5_world_transform_deterministic :
    ∀ (sk1 sk2 : Skeleton), sk1.data = sk2.data → sk1.locals = sk2.locals →
      sk1.update_world_transform.worlds = sk2.update_world_transform.worlds := by
  intro sk1 sk2 hd hl
  simp only [Skeleton.update_world_transform, hd, hl]

/-- C6: every batch of one renderables call carries the controller's
premultiplied_alpha setting, and the one drawer configuration the call
draws with carries the controller's cull_direction setting. -/
theorem c6_uniform_render_settings :
    ∀ {H : Type}
      (draw : SimpleDrawer → Skeleton → SkeletonClipping → List (Renderable H))
      (c : SkeletonController),
      (∀ b ∈ SkeletonController.renderables draw c,
        b.premultiplied_alpha = c.settings.premultiplied_alpha) ∧
      c.drawer.cull_direction = c.settings.cull_direction := by
  intro H draw c
  refine ⟨?_, rfl⟩
  intro b hb
  simp only [SkeletonController.renderables, List.mem_map] at hb
  obtain ⟨r, _, rfl⟩ := hb
  rfl

/-- C7: the dark color of each emitted batch is the dark color the drawer
produced at the same position, copied through unmodified. -/
theorem c7_dark_color_passthrough :
    ∀ {H : Type}
      (draw : SimpleDrawer → Skeleton → SkeletonClipping → List (Renderable H))
      (c : SkeletonController) (i : Nat) (r : Renderable H) (b : SkeletonRenderable H),
      (draw c.drawer c.skeleton c.clipper)[i]? = some r →
      (SkeletonController.renderables draw c)[i]? = some b →
      b.dark_color = r.dark_color := by
  intro H draw c i r b hr hb
  simp only [SkeletonController.renderables, List.getElem?_map, hr, Option.map_some,
    Option.map_some', Option.some.injEq] at hb
  rw [← hb]

/-- C3 (amended): each batch emitted at position i is exactly the record
built from the drawer's renderable at position i — its slot index,
vertices, uvs, indices, color, dark color, blend mode and opaque texture
handle copied unchanged — together with the settings' premultiplied_alpha
flag. -/
theorem c3_batch_fields :
    ∀ {H : Type}
      (draw : SimpleDrawer → Skeleton → SkeletonClipping → List (Renderable H))
      (c : SkeletonController) (i : Nat) (r : Renderable H),
      (draw c.drawer c.skeleton c.clipper)[i]? = some r →
      (SkeletonController.renderables draw c)[i]? = some
        { slot_index := r.slot_index
          vertices := r.vertices
          uvs := r.uvs
          indices := r.indices
          color := r.color
          dark_color := r.dark_color
          blend_mode := r.blend_mode
          premultiplied_alpha := c.settings.premultiplied_alpha
          attachment_renderer_object := r.attachment_renderer_object } := by
  intro H draw c i r hr
  simp only [SkeletonController.renderables, List.getElem?_map, hr, Option.map_some,
    Option.map_some']

/-- A sample skeleton data table shared by the concrete evaluations
below. -/
def sampleData : SkeletonData :=
  { bones := [⟨none⟩, ⟨some 0⟩]
    setup_locals := [Affine.identity, Affine.identity]
    animations := [{ name := "walk", duration := 1, pose_locals := [] }]
    skins := ["default"] }

/-- A sample live skeleton over sampleData. -/
def sampleSkeleton : Skeleton :=
  { data := sampleData
    skin := none
    locals := [⟨1, 0, 0, 1, 2, 3⟩, ⟨1, 0, 0, 1, 4, 5⟩]
    worlds := [] }

/-- A sample animation state with no tracks. -/
def sampleAnimationState : AnimationState :=
  { tracks := [], queued_events := [] }

/-- A sample controller with the default settings. -/
def sampleController : SkeletonController :=
  { skeleton := sampleSkeleton
    animation_state := sampleAnimationState
    clipper := ⟨false⟩
    settings := SkeletonControllerSettings.default_settings }

/-- The sample controller with premultiplied alpha switched on. -/
def samplePmaController : SkeletonController :=
  { sampleController with
      settings := { premultiplied_alpha := true, cull_direction := CullDirection.Clockwise } }

/-- A sample drawer renderable with a concrete opaque handle. -/
def sampleRaw : Renderable Nat :=
  { slot_index := 0
    vertices := [(0, 0), (1, 0), (0, 1)]
    uvs := [(0, 0), (1, 0), (0, 1)]
    indices := [0, 1, 2]
    color := ⟨1, 1, 1, 1⟩
    dark_color := ⟨0, 0, 0, 1⟩
    blend_mode := BlendMode.Normal
    attachment_renderer_object := some 7 }

/-- A sample draw function emitting the one sample renderable. -/
def sampleDraw : SimpleDrawer → Skeleton → SkeletonClipping → List (Renderable Nat) :=
  fun _ _ _ => [sampleRaw]

/-- The batch the sample controller emits for the sample renderable. -/
def sampleBatch : SkeletonRenderable Nat :=
  { slot_index := 0
    vertices := [(0, 0), (1, 0), (0, 1)]
    uvs := [(0, 0), (1, 0), (0, 1)]
    indices := [0, 1, 2]
    color := ⟨1, 1, 1, 1⟩
    dark_color := ⟨0, 0, 0, 1⟩
    blend_mode := BlendMode.Normal
    premultiplied_alpha := false
    attachment_renderer_object := some 7 }

/-- The eight fields the claim lists for a batch, as one tuple. -/
def listedFields (b : SkeletonRenderable Nat) :
    Int × List (ℚ × ℚ) × List (ℚ × ℚ) × List Nat × Color × Color × BlendMode × Option Nat :=
  (b.slot_index, b.vertices, b.uvs, b.indices, b.color, b.dark_color, b.blend_mode,
    b.attachment_renderer_object)

/-- C3 counterexample: two renderables calls whose batches agree on every
one of the eight listed fields yet emit different batches, so a batch
does not carry exactly those eight fields — it also carries the
premultiplied_alpha flag. -/
theorem c3_counterexample :
    (SkeletonController.renderables sampleDraw sampleController).map listedFields =
      (SkeletonController.renderables sampleDraw samplePmaController).map listedFields ∧
    SkeletonController.renderables sampleDraw sampleController ≠
      SkeletonController.renderables sampleDraw samplePmaController :=
  ⟨rfl, by decide⟩

/-- C4: a name absent from the SkeletonData tables makes
set_animation_by_name and set_skin_by_name return the recoverable
NotFound error with the state returned unchanged. -/
theorem c4_lookup_not_found :
    ∀ (st : AnimationState) (d : SkeletonData) (track_index : Nat) (nmA : String)
      (looping : Bool) (sk : Skeleton) (nmS : String),
      (nmA ∉ d.animations.map Animation.name →
        st.set_animation_by_name d track_index nmA looping =
          (st, Except.error SpineError.NotFound)) ∧
      (nmS ∉ sk.data.skins →
        sk.set_skin_by_name nmS = (sk, Except.error SpineError.NotFound)) := by
  intro st d track_index nmA looping sk nmS
  constructor
  · intro hn
    have hfind : d.animations.find? (fun a => a.name == nmA) = none := by
      rw [List.find?_eq_none]
      intro a ha
      simp only [beq_iff_eq]
      intro he
      exact hn (he ▸ List.mem_map_of_mem Animation.name ha)
    simp [AnimationState.set_animation_by_name, hfind]
  · intro hn
    simp [Skeleton.set_skin_by_name, hn]

/-- C9: each variant accessor answers some exactly when the attachment's
variant tag is the corresponding type, so at most one of the five
accessors answers some for any attachment. -/
theorem c9_variant_accessors :
    ∀ (h : AttachHeap) (a : Attachment),
      ((Attachment.as_region h a).isSome ↔
        Attachment.attachment_type h a = AttachmentType.Region) ∧
      ((Attachment.as_bounding_box h a).isSome ↔
        Attachment.attachment_type h a = AttachmentType.BoundingBox) ∧
      ((Attachment.as_mesh h a).isSome ↔
        Attachment.attachment_type h a = AttachmentType.Mesh) ∧
      ((Attachment.as_point h a).isSome ↔
        Attachment.attachment_type h a = AttachmentType.Point) ∧
      ((Attachment.as_clipping h a).isSome ↔
        Attachment.attachment_type h a = AttachmentType.Clipping) ∧
      List.count true
        [(Attachment.as_region h a).isSome, (Attachment.as_bounding_box h a).isSome,
          (Attachment.as_mesh h a).isSome, (Attachment.as_point h a).isSome,
          (Attachment.as_clipping h a).isSome] ≤ 1 := by
  intro h a
  cases ht : Attachment.attachment_type h a <;>
    simp [Attachment.as_region, Attachment.as_bounding_box, Attachment.as_mesh,
      Attachment.as_point, Attachment.as_clipping, ht]

/-- Advancing a non-looping entry clamps at the duration and fires
Complete exactly on the crossing. -/
lemma advance_nonloop (e : TrackEntry) (dt : ℚ) (hl : e.looping = false) :
    e.advance dt =
      ({ e with track_time := min (e.track_time + dt * e.time_scale) e.animation.duration },
        if e.track_time < e.animation.duration ∧
            e.animation.duration ≤ e.track_time + dt * e.time_scale then
          [EventType.Complete]
        else
          []) := by
  simp [TrackEntry.advance, hl]

/-- A non-looping entry already at its duration is left unchanged by a
nonnegative advance and fires nothing. -/
lemma advance_at_duration (e : TrackEntry) (dt : ℚ) (hl : e.looping = false)
    (ht : e.track_time = e.animation.duration) (hdt : 0 ≤ dt) (hts : 0 ≤ e.time_scale) :
    e.advance dt = (e, []) := by
  rw [advance_nonloop e dt hl]
  have h1 : 0 ≤ dt * e.time_scale := mul_nonneg hdt hts
  have h2 : min (e.track_time + dt * e.time_scale) e.animation.duration = e.track_time := by
    rw [ht]
    exact min_eq_right (by linarith)
  have h3 : ¬(e.track_time < e.animation.duration ∧
      e.animation.duration ≤ e.track_time + dt * e.time_scale) := by
    rw [ht]
    simp
  rw [h2, if_neg h3]

/-- A non-looping entry already at its duration stays there over any
sequence of nonnegative advances, firing nothing. -/
lemma advanceMany_at_duration :
    ∀ (dts : List ℚ) (e : TrackEntry), e.looping = false →
      e.track_time = e.animation.duration → 0 ≤ e.time_scale →
      (∀ d ∈ dts, 0 ≤ d) → e.advanceMany dts = (e, []) := by
  intro dts
  induction dts with
  | nil =>
    intro e _ _ _ _
    rfl
  | cons d rest ih =>
    intro e hl ht hts hdts
    have h1 : e.advance d = (e, []) :=
      advance_at_duration e d hl ht (hdts d (by simp)) hts
    have h2 : e.advanceMany rest = (e, []) :=
      ih e hl ht hts (fun x hx => hdts x (by simp [hx]))
    simp [TrackEntry.advanceMany, h1, h2]

/-- C2: a non-looping track entry below its animation's duration, advanced
repeatedly by nonnegative deltas whose scaled total reaches the duration,
ends with track time exactly the duration (clamped, never beyond) and
fires exactly one Complete event over the whole sequence of advances. -/
theorem c2_nonloop_clamp_single_complete :
    ∀ (dts : List ℚ) (e : TrackEntry),
      e.looping = false →
      0 ≤ e.time_scale →
      (∀ d ∈ dts, 0 ≤ d) →
      e.track_time < e.animation.duration →
      e.animation.duration ≤ e.track_time + e.time_scale * dts.sum →
      (e.advanceMany dts).1.track_time = e.animation.duration ∧
      (e.advanceMany dts).2.count EventType.Complete = 1 := by
  intro dts
  induction dts with
  | nil =>
    intro e hl hts hdts h0 hsum
    exfalso
    simp only [List.sum_nil, mul_zero, add_zero] at hsum
    linarith
  | cons d rest ih =>
    intro e hl hts hdts h0 hsum
    have hd0 : 0 ≤ d := hdts d (by simp)
    by_cases hc : e.animation.duration ≤ e.track_time + d * e.time_scale
    · have hadv : e.advance d = ({ e with track_time := e.animation.duration },
          [EventType.Complete]) := by
        rw [advance_nonloop e d hl, min_eq_right hc, if_pos ⟨h0, hc⟩]
      have hstay : TrackEntry.advanceMany { e with track_time := e.animation.duration } rest =
          ({ e with track_time := e.animation.duration }, []) := by
        apply advanceMany_at_duration
        · exact hl
        · rfl
        · exact hts
        · exact fun x hx => hdts x (List.mem_cons_of_mem d hx)
      constructor
      · simp [TrackEntry.advanceMany, hadv, hstay]
      · simp [TrackEntry.advanceMany, hadv, hstay]
    · push_neg at hc
      have hadv : e.advance d =
          ({ e with track_time := e.track_time + d * e.time_scale }, []) := by
        rw [advance_nonloop e d hl, min_eq_left (le_of_lt hc),
          if_neg (fun hand => absurd hand.2 (not_le_of_lt hc))]
      have hsum2 : e.animation.duration ≤
          (e.track_time + d * e.time_scale) + e.time_scale * rest.sum := by
        have hmuldist : e.time_scale * (d + rest.sum) =
            e.time_scale * d + e.time_scale * rest.sum := mul_add _ _ _
        have hcomm : d * e.time_scale = e.time_scale * d := mul_comm _ _
        rw [List.sum_cons] at hsum
        linarith
      have hrec := ih { e with track_time := e.track_time + d * e.time_scale }
        hl hts (fun x hx => hdts x (List.mem_cons_of_mem d hx)) hc hsum2
      constructor
      · simpa [TrackEntry.advanceMany, hadv] using hrec.1
      · simpa [TrackEntry.advanceMany, hadv] using hrec.2

/-- C8: cloning an attachment handle at a live address yields a handle to
the same address, bumps that record's reference count by exactly one,
copies no geometry, allocates nothing and leaves every other record
untouched. -/
theorem c8_clone_shares_not_copies :
    ∀ (h : AttachHeap) (a : Attachment), a.c_attachment < List.length h →
      (a.clone h).2.c_attachment = a.c_attachment ∧
      ((a.clone h).1.getD a.c_attachment defaultCAttachment).refCount =
        (h.getD a.c_attachment defaultCAttachment).refCount + 1 ∧
      ((a.clone h).1.getD a.c_attachment defaultCAttachment).geometry =
        (h.getD a.c_attachment defaultCAttachment).geometry ∧
      List.length (a.clone h).1 = List.length h ∧
      (∀ q, q ≠ a.c_attachment →
        (a.clone h).1.getD q defaultCAttachment = h.getD q defaultCAttachment) := by
  intro h a hp
  refine ⟨rfl, ?_, ?_, ?_, ?_⟩
  · simp [Attachment.clone, Attachment.new_from_ptr, List.getD, List.getElem?_set_self', hp]
  · simp [Attachment.clone, Attachment.new_from_ptr, List.getD, List.getElem?_set_self', hp]
  · simp [Attachment.clone, Attachment.new_from_ptr]
  · intro q hq
    simp [Attachment.clone, Attachment.new_from_ptr, List.getD,
      List.getElem?_set_ne (Ne.symm hq)]

/-- C10: SkeletonControllerSettings::new equals the Default value, which is
premultiplied_alpha = false and cull_direction = Clockwise; each with_*
builder updates only its own field and leaves the other unchanged, for
every starting settings value. -/
theorem c10_settings_defaults_and_updates :
    SkeletonControllerSettings.new = SkeletonControllerSettings.default_settings ∧
    SkeletonControllerSettings.default_settings =
      { premultiplied_alpha := false, cull_direction := CullDirection.Clockwise } ∧
    (∀ (s : SkeletonControllerSettings) (b : Bool),
      (s.with_premultiplied_alpha b).premultiplied_alpha = b ∧
      (s.with_premultiplied_alpha b).cull_direction = s.cull_direction) ∧
    (∀ (s : SkeletonControllerSettings) (d : CullDirection),
      (s.with_cull_direction d).cull_direction = d ∧
      (s.with_cull_direction d).premultiplied_alpha = s.premultiplied_alpha) :=
  ⟨rfl, rfl, fun _ _ => ⟨rfl, rfl⟩, fun _ _ => ⟨rfl, rfl⟩⟩

/-- A concrete non-looping track entry below its duration. -/
def c2Entry : TrackEntry :=
  { animation := { name := "walk", duration := 4, pose_locals := [] }
    track_time := 0
    looping := false
    time_scale := 1 }

/-- A concrete sequence of three frame deltas whose total passes the
duration at the second advance. -/
def c2Dts : List ℚ :=
  [2, 3, 4]

/-- Witness for C2: the concrete entry advanced by the concrete deltas
satisfies every hypothesis and ends clamped at duration 4 having fired
exactly one Complete. -/
theorem c2_witness :
    c2Entry.looping = false ∧
    0 ≤ c2Entry.time_scale ∧
    (∀ d ∈ c2Dts, 0 ≤ d) ∧
    c2Entry.track_time < c2Entry.animation.duration ∧
    c2Entry.animation.duration ≤ c2Entry.track_time + c2Entry.time_scale * c2Dts.sum ∧
    ((c2Entry.advanceMany c2Dts).1.track_time = c2Entry.animation.duration ∧
      (c2Entry.advanceMany c2Dts).2.count EventType.Complete = 1) :=
  ⟨rfl, by decide, by decide, by decide, by norm_num [c2Entry, c2Dts],
    c2_nonloop_clamp_single_complete c2Dts c2Entry rfl (by decide) (by decide)
      (by decide) (by norm_num [c2Entry, c2Dts])⟩

/-- Witness for C3 (amended): at the sample input the drawer's first
renderable exists and the first emitted batch is exactly the record the
theorem names. -/
theorem c3_witness :
    (sampleDraw sampleController.drawer sampleController.skeleton
        sampleController.clipper)[0]? = some sampleRaw ∧
    (SkeletonController.renderables sampleDraw sampleController)[0]? = some
      { slot_index := sampleRaw.slot_index
        vertices := sampleRaw.vertices
        uvs := sampleRaw.uvs
        indices := sampleRaw.indices
        color := sampleRaw.color
        dark_color := sampleRaw.dark_color
        blend_mode := sampleRaw.blend_mode
        premultiplied_alpha := sampleController.settings.premultiplied_alpha
        attachment_renderer_object := sampleRaw.attachment_renderer_object } :=
  ⟨rfl, c3_batch_fields sampleDraw sampleController 0 sampleRaw rfl⟩

/-- Witness for C4: the name missing is absent from the sample tables and
both lookups return NotFound with the state unchanged. -/
theorem c4_witness :
    "missing" ∉ sampleData.animations.map Animation.name ∧
    "missing" ∉ sampleSkeleton.data.skins ∧
    sampleAnimationState.set_animation_by_name sampleData 0 "missing" true =
      (sampleAnimationState, Except.error SpineError.NotFound) ∧
    sampleSkeleton.set_skin_by_name "missing" =
      (sampleSkeleton, Except.error SpineError.NotFound) :=
  ⟨by decide, by decide,
    (c4_lookup_not_found sampleAnimationState sampleData 0 "missing" true
      sampleSkeleton "missing").1 (by decide),
    (c4_lookup_not_found sampleAnimationState sampleData 0 "missing" true
      sampleSkeleton "missing").2 (by decide)⟩

/-- A second sample skeleton with the same data and locals as the first
but different skin and stale world state. -/
def c5OtherSkeleton : Skeleton :=
  { sampleSkeleton with skin := some "default", worlds := [Affine.identity] }

/-- Witness for C5: the two concrete skeletons share data and locals and
propagation gives them identical world matrices. -/
theorem c5_witness :
    sampleSkeleton.data = c5OtherSkeleton.data ∧
    sampleSkeleton.locals = c5OtherSkeleton.locals ∧
    sampleSkeleton.update_world_transform.worlds =
      c5OtherSkeleton.update_world_transform.worlds :=
  ⟨rfl, rfl, c5_world_transform_deterministic sampleSkeleton c5OtherSkeleton rfl rfl⟩

/-- Witness for C6: the sample batch is among the sample call's output and
carries the controller's premultiplied_alpha; the drawer used carries the
controller's cull_direction. -/
theorem c6_witness :
    sampleBatch ∈ SkeletonController.renderables sampleDraw sampleController ∧
    sampleBatch.premultiplied_alpha = sampleController.settings.premultiplied_alpha ∧
    sampleController.drawer.cull_direction = sampleController.settings.cull_direction :=
  ⟨by decide,
    (c6_uniform_render_settings sampleDraw sampleController).1 sampleBatch (by decide),
    (c6_uniform_render_settings sampleDraw sampleController).2⟩

/-- Witness for C7: at position zero of the sample call the emitted
batch's dark color equals the drawer renderable's dark color. -/
theorem c7_witness :
    (sampleDraw sampleController.drawer sampleController.skeleton
        sampleController.clipper)[0]? = some sampleRaw ∧
    (SkeletonController.renderables sampleDraw sampleController)[0]? = some sampleBatch ∧
    sampleBatch.dark_color = sampleRaw.dark_color :=
  ⟨rfl, by decide,
    c7_dark_color_passthrough sampleDraw sampleController 0 sampleRaw sampleBatch rfl
      (by decide)⟩

/-- A concrete two-record attachment heap. -/
def c8Heap : AttachHeap :=
  [{ refCount := 2, type_0 := AttachmentType.Region, name := "head",
      geometry := [(0, 0), (1, 0), (1, 1), (0, 1)] },
    { refCount := 1, type_0 := AttachmentType.Mesh, name := "torso",
      geometry := [(0, 0), (2, 0), (2, 2)] }]

/-- A concrete attachment handle at address one of the heap. -/
def c8Handle : Attachment :=
  ⟨1⟩

/-- Witness for C8: cloning the concrete handle keeps its address, bumps
the record's reference count from one to two, copies no geometry,
allocates nothing and leaves address zero untouched. -/
theorem c8_witness :
    c8Handle.c_attachment < List.length c8Heap ∧
    ((c8Handle.clone c8Heap).2.c_attachment = c8Handle.c_attachment ∧
      ((c8Handle.clone c8Heap).1.getD c8Handle.c_attachment defaultCAttachment).refCount =
        (c8Heap.getD c8Handle.c_attachment defaultCAttachment).refCount + 1 ∧
      ((c8Handle.clone c8Heap).1.getD c8Handle.c_attachment defaultCAttachment).geometry =
        (c8Heap.getD c8Handle.c_attachment defaultCAttachment).geometry ∧
      List.length (c8Handle.clone c8Heap).1 = List.length c8Heap ∧
      (∀ q, q ≠ c8Handle.c_attachment →
        (c8Handle.clone c8Heap).1.getD q defaultCAttachment =
          c8Heap.getD q defaultCAttachment)) :=
  ⟨by decide, c8_clone_shares_not_copies c8Heap c8Handle (by decide)⟩

end Spine
